import Mathlib

/-!
Shallow embedding of the kconnect discovery-provider core:

* `src/pkg/plugins/discovery/aws/discover.go` — the EKS provider methods
  `Discover`, `listClusters` and `getClusterConfig` (package `aws`);
* the Azure AKS provider file (package `azure`) — `New`, `aksClusterProvider.setup`
  and `ConfigurationItems`.

Cloud SDK calls are external collaborators; they are modelled as record fields
holding the result each call would return, and the embedded `Discover` records
the sequence of collaborator calls it performs so that ordering and fail-fast
properties can be stated. Go `error` results become `Except String`
or `Option` values carrying the same wrapped message strings the source builds
with `fmt.Errorf`.
-/

/-- Boolean test: the first character list is a leading run of the second. -/
def charsLeading : List Char → List Char → Bool
  | [], _ => true
  | _ :: _, [] => false
  | a :: as, b :: bs => a == b && charsLeading as bs

/-- Boolean test: the first character list occurs contiguously inside the second. -/
def charsWithin : List Char → List Char → Bool
  | pat, [] => charsLeading pat []
  | pat, b :: bs => charsLeading pat (b :: bs) || charsWithin pat bs

/-- String containment: `pat` occurs as a contiguous substring of `s`. -/
def strContainsSub (s pat : String) : Bool :=
  charsWithin pat.toList s.toList

/-- Whether an `Except` value is the error case (Go: a non-nil `error` return,
with the paired pointer result `nil`). -/
def exceptIsError {ε α : Type} : Except ε α → Bool
  | Except.error _ => true
  | Except.ok _ => false

/-- The normalized cluster model from `pkg/provider/discovery`
(fields as read in `getClusterConfig`, lines 90-95 of discover.go):
`ControlPlaneEndpoint` and `CertificateAuthorityData` are pointers in Go,
hence `Option` here. -/
structure Cluster where
  id : String
  name : String
  controlPlaneEndpoint : Option String
  certificateAuthorityData : Option String
  deriving DecidableEq, Repr

/-- The discovery output from `pkg/provider/discovery`. The Go
`map[string]*discovery.Cluster` is modelled as an association list in
insertion order; `mapAssign` below models Go map assignment. -/
structure DiscoverOutput where
  discoveryProvider : String
  identityProvider : String
  clusters : List (String × Cluster)
  deriving DecidableEq, Repr

/-- Go map assignment `m[k] = v`: overwrite the entry for `k` when present,
otherwise append a new entry. -/
def mapAssign (m : List (String × Cluster)) (k : String) (v : Cluster) :
    List (String × Cluster) :=
  if m.any (fun p => p.1 == k) then
    m.map (fun p => if p.1 == k then (p.1, v) else p)
  else
    m ++ [(k, v)]

/-- The `context.Context` handed to `Discover`. Only cancellation is relevant
to the spec; the source of `Discover` never reads the context. -/
structure Ctx where
  canceled : Bool
  deriving DecidableEq, Repr

namespace Aws

/-- The fields of the AWS SDK `DescribeClusterOutput` that `getClusterConfig`
reads: `output.Cluster.Arn`, `.Name` (dereferenced), `.Endpoint` and
`.CertificateAuthority.Data` (copied as pointers). -/
structure EksDescribeOutput where
  arn : String
  name : String
  endpoint : Option String
  certificateAuthorityData : Option String
  deriving DecidableEq, Repr

/-- The external cloud SDK collaborator (`p.eksClient`). `listClustersPages`
holds the fully drained page contents (pagination is drained by the
collaborator, per the external-interface contract) or the error the paged
call reports; `describeCluster` holds the per-name result of
`DescribeCluster`. -/
structure EksClient where
  listClustersPages : Except String (List String)
  describeCluster : String → Except String EksDescribeOutput

/-- One observable collaborator call made during a discovery run. -/
inductive CollabCall where
  | listClusters : CollabCall
  | describeCluster (name : String) : CollabCall
  deriving DecidableEq, Repr

/-- The `ProviderName` constant of package `aws` (declared outside the
visible source file; its value is irrelevant to every claim). -/
def ProviderName : String := "eks"

/-- Embeds `eksClusterProvider.listClusters` (discover.go lines 64-77):
drain the paged list call, wrapping an error as
`fmt.Errorf("listing clusters: %w", err)`. -/
def listClusters (c : EksClient) : Except String (List String) :=
  match c.listClustersPages with
  | Except.error e => Except.error ("listing clusters: " ++ e)
  | Except.ok cs => Except.ok cs

/-- Embeds `eksClusterProvider.getClusterConfig` (discover.go lines 79-96):
describe one cluster and normalize it, wrapping an error as
`fmt.Errorf("describing cluster %s: %w", clusterName, err)`. -/
def getClusterConfig (c : EksClient) (clusterName : String) : Except String Cluster :=
  match c.describeCluster clusterName with
  | Except.error e => Except.error ("describing cluster " ++ clusterName ++ ": " ++ e)
  | Except.ok output =>
      Except.ok
        { id := output.arn
          name := output.name
          controlPlaneEndpoint := output.endpoint
          certificateAuthorityData := output.certificateAuthorityData }

/-- The normalized cluster `getClusterConfig` builds from a describe output. -/
def clusterOfDescribe (o : EksDescribeOutput) : Cluster :=
  { id := o.arn
    name := o.name
    controlPlaneEndpoint := o.endpoint
    certificateAuthorityData := o.certificateAuthorityData }

/-- Embeds the `for _, clusterName := range clusters` loop of `Discover`
(discover.go lines 52-59): each iteration describes one cluster and assigns
`discoverOutput.Clusters[clusterDetail.ID] = clusterDetail`; the first
failing iteration returns `fmt.Errorf("getting cluster config: %w", err)`
and the loop stops. The second component records the describe calls made. -/
def discoverLoop (c : EksClient) :
    List String → List (String × Cluster) →
      Except String (List (String × Cluster)) × List CollabCall
  | [], acc => (Except.ok acc, [])
  | n :: rest, acc =>
    match getClusterConfig c n with
    | Except.error e =>
        (Except.error ("getting cluster config: " ++ e), [CollabCall.describeCluster n])
    | Except.ok d =>
        let r := discoverLoop c rest (mapAssign acc d.id d)
        (r.1, CollabCall.describeCluster n :: r.2)

/-- Embeds `eksClusterProvider.Discover` (discover.go lines 29-62).
`setupErr` holds the result of `p.setup(input.ConfigSet, input.Identity)`:
the eks setup body lives outside the visible source, and `Discover` only
branches on whether it returned an error, wrapping it as
`fmt.Errorf("setting up eks provider: %w", err)`. Note the source takes
`ctx context.Context` but never reads it, which the unused `ctx` argument
mirrors. The second component is the sequence of collaborator calls made. -/
def Discover (ctx : Ctx) (setupErr : Option String) (c : EksClient) :
    Except String DiscoverOutput × List CollabCall :=
  match setupErr with
  | some e => (Except.error ("setting up eks provider: " ++ e), [])
  | none =>
    match listClusters c with
    | Except.error e =>
        (Except.error ("listing clusters: " ++ e), [CollabCall.listClusters])
    | Except.ok clusters =>
      if clusters.length == 0 then
        (Except.ok
            { discoveryProvider := ProviderName
              identityProvider := "aws"
              clusters := [] },
          [CollabCall.listClusters])
      else
        let r := discoverLoop c clusters []
        match r.1 with
        | Except.error e => (Except.error e, CollabCall.listClusters :: r.2)
        | Except.ok m =>
            (Except.ok
                { discoveryProvider := ProviderName
                  identityProvider := "aws"
                  clusters := m },
              CollabCall.listClusters :: r.2)

end Aws

namespace Config

/-- A typed configuration value (kind String or Bool, the two kinds the AKS
provider declares). -/
inductive ConfigValue where
  | str (s : String) : ConfigValue
  | bool (b : Bool) : ConfigValue
  deriving DecidableEq, Repr

/-- Modelled from the spec: one item of a ConfigurationSet — a named, typed
item with a default value, a description and an optional short alias
(package `config` is not under src). -/
structure ConfigItem where
  name : String
  value : ConfigValue
  description : String
  shortAlias : Option String
  deriving DecidableEq, Repr

/-- Modelled from the spec: a ConfigurationSet is an ordered mapping of named
items (package `config` is not under src). -/
structure ConfigurationSet where
  items : List ConfigItem
  deriving DecidableEq, Repr

/-- Modelled from the spec: `config.NewConfigurationSet` — the empty set. -/
def NewConfigurationSet : ConfigurationSet := { items := [] }

/-- Modelled from the spec: `cs.String(name, default, description)` declares a
string item with a default. -/
def ConfigurationSet.string (cs : ConfigurationSet)
    (name defaultValue description : String) : ConfigurationSet :=
  { items := cs.items ++
      [{ name := name, value := ConfigValue.str defaultValue,
         description := description, shortAlias := none }] }

/-- Modelled from the spec: `cs.Bool(name, default, description)` declares a
bool item with a default. -/
def ConfigurationSet.bool (cs : ConfigurationSet)
    (name : String) (defaultValue : Bool) (description : String) : ConfigurationSet :=
  { items := cs.items ++
      [{ name := name, value := ConfigValue.bool defaultValue,
         description := description, shortAlias := none }] }

/-- Modelled from the spec: `cs.SetShort(name, short)` attaches a short alias
to the named item. -/
def ConfigurationSet.setShort (cs : ConfigurationSet)
    (name short : String) : ConfigurationSet :=
  { items := cs.items.map
      (fun i => if i.name == name then { i with shortAlias := some short } else i) }

/-- Look up a declared string item: absent is allowed (the Go field is a nil
pointer), a non-string kind is a bind error. -/
def getStringItem (cs : ConfigurationSet) (name : String) :
    Except String (Option String) :=
  match cs.items.find? (fun i => i.name == name) with
  | none => Except.ok none
  | some i =>
    match i.value with
    | ConfigValue.str s => Except.ok (some s)
    | _ => Except.error ("config bind: item " ++ name ++ " is not a string")

/-- Look up a declared bool item: absent leaves the Go field at its zero
value `false`, a non-bool kind is a bind error. -/
def getBoolItem (cs : ConfigurationSet) (name : String) : Except String Bool :=
  match cs.items.find? (fun i => i.name == name) with
  | none => Except.ok false
  | some i =>
    match i.value with
    | ConfigValue.bool b => Except.ok b
    | _ => Except.error ("config bind: item " ++ name ++ " is not a bool")

end Config

namespace Azure

open Config

/-- The `ProviderName` constant of the azure package (visible in src): "aks". -/
def ProviderName : String := "aks"

/-- Modelled from the spec: the names of the AKS configuration items — the
`*ConfigItem` string constants are declared outside the visible source; the
configuration-item table of the spec fixes them. -/
def SubscriptionIDConfigItem : String := "subscription-id"

/-- Modelled from the spec: see `SubscriptionIDConfigItem`. -/
def SubscriptionNameConfigItem : String := "subscription-name"

/-- Modelled from the spec: see `SubscriptionIDConfigItem`. -/
def ResourceGroupConfigItem : String := "resource-group"

/-- Modelled from the spec: see `SubscriptionIDConfigItem`. -/
def AdminConfigItem : String := "admin"

/-- Modelled from the spec: see `SubscriptionIDConfigItem`. -/
def ClusterNameConfigItem : String := "cluster-name"

/-- The token material of `oidc.Identity` (its fields live outside the
visible source; `setup` only wraps the whole value). -/
structure OidcIdentity where
  accessToken : String
  deriving DecidableEq, Repr

/-- An `autorest.Authorizer` capability value. `bearer` is the result of
`autorest.NewBearerAuthorizer(id)` wrapping an OIDC identity as token
provider; `external` stands for any other prebuilt authorizer a caller
constructed. -/
inductive Authorizer where
  | bearer (tokenProvider : OidcIdentity) : Authorizer
  | external (tag : String) : Authorizer
  deriving DecidableEq, Repr

/-- `azid.AuthorizerIdentity`: an identity that carries an already-constructed
authorizer, returned by its `Authorizer()` accessor. -/
structure AuthorizerIdentity where
  authorizer : Authorizer
  deriving DecidableEq, Repr

/-- The dynamic type of an `identity.Identity` value as seen by the type
switch in `setup`: the two variants it names, and `other` for any different
implementation of the interface (carrying the name of the identity provider
that produced it). -/
inductive Identity where
  | oidc (id : OidcIdentity) : Identity
  | authorizer (id : AuthorizerIdentity) : Identity
  | other (identityProviderName : String) : Identity
  deriving DecidableEq, Repr

/-- Modelled from the spec: the message text of the package-level sentinel
`ErrUnsupportedIdentity`, whose declaration is outside the visible source.
The call site in `setup` (`return ErrUnsupportedIdentity`) passes it no
data, so whatever its text, it is one fixed string; the concrete text chosen
here is immaterial to the dispatch structure proved below. -/
def errUnsupportedIdentityMessage : String := "unsupported identity"

/-- The errors the visible azure code returns. `unmarshalling e` carries the
cause wrapped by `setup`; `unsupportedIdentity` is the sentinel
`ErrUnsupportedIdentity`; `httpClientRequired` is the sentinel
`provider.ErrHTTPClientRequired` returned by `New`. -/
inductive AzureError where
  | unmarshalling (cause : String) : AzureError
  | unsupportedIdentity : AzureError
  | httpClientRequired : AzureError
  deriving DecidableEq, Repr

/-- The user-visible message of an azure error (sentinel texts modelled,
see `errUnsupportedIdentityMessage`). -/
def AzureError.message : AzureError → String
  | AzureError.unmarshalling c =>
      "unmarshalling config items into eksClusteProviderConfig: " ++ c
  | AzureError.unsupportedIdentity => errUnsupportedIdentityMessage
  | AzureError.httpClientRequired => "http client required"

/-- The typed configuration `aksClusterProviderConfig` (pointer fields are
`Option`). The embedded `common.ClusterProviderConfig` is declared outside
the visible source and none of its items take part in any claim, so it is
omitted here. -/
structure aksClusterProviderConfig where
  subscriptionID : Option String
  subscriptionName : Option String
  resourceGroup : Option String
  admin : Bool
  clusterName : String
  deriving DecidableEq, Repr

/-- Modelled from the spec: `config.Unmarshall(cs, cfg)` (package `config` is
not under src) unmarshals the set into the typed configuration, failing with
a bind error on a kind mismatch; an absent item leaves a pointer field nil
and a plain field at its zero value. -/
def Unmarshall (cs : ConfigurationSet) : Except String aksClusterProviderConfig := do
  let sid ← getStringItem cs SubscriptionIDConfigItem
  let sname ← getStringItem cs SubscriptionNameConfigItem
  let rg ← getStringItem cs ResourceGroupConfigItem
  let adm ← getBoolItem cs AdminConfigItem
  let cn ← getStringItem cs ClusterNameConfigItem
  pure
    { subscriptionID := sid
      subscriptionName := sname
      resourceGroup := rg
      admin := adm
      clusterName := cn.getD "" }

/-- The HTTP client collaborator handed to `New` (an interface value; its
behavior takes part in no claim). -/
structure HTTPClient where
  tag : String
  deriving DecidableEq, Repr

/-- The mutable state of an `aksClusterProvider` value: the `config` and
`authorizer` fields `setup` writes (nil pointers initially), and the fields
`New` copies from its input. The logger field takes part in no claim and is
omitted. -/
structure aksClusterProvider where
  config : Option aksClusterProviderConfig
  authorizer : Option Authorizer
  httpClient : HTTPClient
  interactive : Bool
  deriving DecidableEq, Repr

/-- The `provider.PluginCreationInput` fields `New` reads (the field name
`IsInteractice` keeps the spelling of the source). -/
structure PluginCreationInput where
  HTTPClient : Option HTTPClient
  IsInteractice : Bool
  deriving DecidableEq, Repr

/-- Embeds `New` (azure provider file, lines 65-75): fail with
`provider.ErrHTTPClientRequired` when the HTTP client collaborator is nil,
otherwise build the provider value. -/
def New (input : PluginCreationInput) : Except AzureError aksClusterProvider :=
  match input.HTTPClient with
  | none => Except.error AzureError.httpClientRequired
  | some hc =>
      Except.ok
        { config := none
          authorizer := none
          httpClient := hc
          interactive := input.IsInteractice }

/-- Embeds `aksClusterProvider.setup` (azure provider file, lines 99-121):
unmarshal the configuration set (wrapping a failure), assign `p.config`,
then dispatch on the dynamic type of the identity: `*oidc.Identity` gets a
bearer authorizer wrapping it, `*azid.AuthorizerIdentity` contributes the
authorizer it carries, and any other type returns `ErrUnsupportedIdentity`.
Returns the updated receiver and the `error` result. -/
def setup (p : aksClusterProvider) (cs : ConfigurationSet) (userID : Identity) :
    aksClusterProvider × Option AzureError :=
  match Unmarshall cs with
  | Except.error e => (p, some (AzureError.unmarshalling e))
  | Except.ok cfg =>
    let p1 := { p with config := some cfg }
    match userID with
    | Identity.oidc id =>
        ({ p1 with authorizer := some (Authorizer.bearer id) }, none)
    | Identity.authorizer id =>
        ({ p1 with authorizer := some id.authorizer }, none)
    | Identity.other _ => (p1, some AzureError.unsupportedIdentity)

/-- Embeds `ConfigurationItems` (azure provider file, lines 132-144): declare
the five AKS items with their defaults and descriptions, then set the short
alias of the resource-group item. The Go signature returns
`(config.ConfigurationSet, error)` and always returns a nil error. -/
def ConfigurationItems (scopeTo : String) : Except String ConfigurationSet :=
  Except.ok
    ((((((NewConfigurationSet.string SubscriptionIDConfigItem ""
            "The Azure subscription to use (specified by ID)").string
          SubscriptionNameConfigItem ""
            "The Azure subscription to use (specified by name)").string
          ResourceGroupConfigItem "" "The Azure resource group to use").bool
          AdminConfigItem false "Generate admin user kubeconfig").string
          ClusterNameConfigItem "" "The name of the AKS cluster").setShort
      ResourceGroupConfigItem "r")

/-- The configuration set `ConfigurationItems` declares, written out: used as
a concrete input when instantiating the theorems below. -/
def aksDefaultConfigSet : ConfigurationSet :=
  { items :=
      [ { name := "subscription-id", value := ConfigValue.str "",
          description := "The Azure subscription to use (specified by ID)", shortAlias := none },
        { name := "subscription-name", value := ConfigValue.str "",
          description := "The Azure subscription to use (specified by name)", shortAlias := none },
        { name := "resource-group", value := ConfigValue.str "",
          description := "The Azure resource group to use", shortAlias := some "r" },
        { name := "admin", value := ConfigValue.bool false,
          description := "Generate admin user kubeconfig", shortAlias := none },
        { name := "cluster-name", value := ConfigValue.str "",
          description := "The name of the AKS cluster", shortAlias := none } ] }

/-- The typed configuration obtained by unmarshalling `aksDefaultConfigSet`. -/
def aksDefaultConfig : aksClusterProviderConfig :=
  { subscriptionID := some ""
    subscriptionName := some ""
    resourceGroup := some ""
    admin := false
    clusterName := "" }

/-- A freshly constructed provider (as `New` returns it). -/
def emptyAksProvider : aksClusterProvider :=
  { config := none
    authorizer := none
    httpClient := { tag := "hc" }
    interactive := false }

/-- A provider carrying an earlier bound configuration and authorizer: used to
observe which fields a failing `setup` overwrites. -/
def staleAksProvider : aksClusterProvider :=
  { config := some
      { subscriptionID := some "old"
        subscriptionName := none
        resourceGroup := none
        admin := true
        clusterName := "old" }
    authorizer := some (Authorizer.external "stale")
    httpClient := { tag := "hc" }
    interactive := false }

end Azure

namespace Aws

/-- A collaborator listing two clusters whose describes both succeed: used as
a concrete input when instantiating the theorems below. -/
def twoClusterDescribe : String → EksDescribeOutput := fun n =>
  if n = "a" then
    { arn := "arn-a", name := "a",
      endpoint := some "https://a", certificateAuthorityData := some "ca-a" }
  else
    { arn := "arn-b", name := "b",
      endpoint := none, certificateAuthorityData := none }

/-- See `twoClusterDescribe`. -/
def twoClusterClient : EksClient :=
  { listClustersPages := Except.ok ["a", "b"]
    describeCluster := fun n => Except.ok (twoClusterDescribe n) }

end Aws

namespace Aws

/-- Go map assignment appends when the key is fresh. -/
theorem mapAssign_of_not_mem (m : List (String × Cluster)) (k : String) (v : Cluster)
    (h : k ∉ m.map Prod.fst) : mapAssign m k v = m ++ [(k, v)] := by
  unfold mapAssign
  rw [if_neg]
  intro hany
  rcases List.any_eq_true.mp hany with ⟨p, hp, hpk⟩
  exact h (List.mem_map.mpr ⟨p, hp, eq_of_beq hpk⟩)

/-- If the describe of some listed cluster fails, the describe loop fails. -/
theorem discoverLoop_isError_of_mem (c : EksClient) :
    ∀ (names : List String) (acc : List (String × Cluster)) (n : String),
      n ∈ names → exceptIsError (getClusterConfig c n) = true →
      exceptIsError (discoverLoop c names acc).1 = true := by
  intro names
  induction names with
  | nil =>
    intro acc n hn _
    exact absurd hn (List.not_mem_nil n)
  | cons m rest ih =>
    intro acc n hn herr
    cases hconf : getClusterConfig c m with
    | error e => simp [discoverLoop, hconf, exceptIsError]
    | ok d =>
      rcases List.mem_cons.mp hn with heq | htail
      · rw [heq, hconf] at herr
        simp [exceptIsError] at herr
      · simpa [discoverLoop, hconf] using
          ih (mapAssign acc d.id d) n htail herr

/-- When every describe succeeds and the resulting ids are fresh and distinct,
the describe loop appends one normalized entry per listed cluster. -/
theorem discoverLoop_all_ok (c : EksClient) (g : String → EksDescribeOutput) :
    ∀ (names : List String) (acc : List (String × Cluster)),
      (∀ n ∈ names, c.describeCluster n = Except.ok (g n)) →
      (∀ n ∈ names, (g n).arn ∉ acc.map Prod.fst) →
      (names.map (fun n => (g n).arn)).Nodup →
      (discoverLoop c names acc).1 =
        Except.ok (acc ++ names.map (fun n => ((g n).arn, clusterOfDescribe (g n)))) := by
  intro names
  induction names with
  | nil =>
    intro acc _ _ _
    simp [discoverLoop]
  | cons m rest ih =>
    intro acc hdesc hfresh hnd
    have hm : c.describeCluster m = Except.ok (g m) := hdesc m (List.mem_cons_self m rest)
    have hconf : getClusterConfig c m = Except.ok (clusterOfDescribe (g m)) := by
      simp [getClusterConfig, hm, clusterOfDescribe]
    have hassign :
        mapAssign acc (clusterOfDescribe (g m)).id (clusterOfDescribe (g m)) =
          acc ++ [((g m).arn, clusterOfDescribe (g m))] := by
      have : (clusterOfDescribe (g m)).id = (g m).arn := rfl
      rw [this]
      exact mapAssign_of_not_mem acc (g m).arn (clusterOfDescribe (g m))
        (hfresh m (List.mem_cons_self m rest))
    have hnotin : (g m).arn ∉ rest.map (fun n => (g n).arn) :=
      (List.nodup_cons.mp hnd).1
    have hrest :
        (discoverLoop c rest (acc ++ [((g m).arn, clusterOfDescribe (g m))])).1 =
          Except.ok ((acc ++ [((g m).arn, clusterOfDescribe (g m))]) ++
            rest.map (fun n => ((g n).arn, clusterOfDescribe (g n)))) := by
      apply ih
      · intro n hn
        exact hdesc n (List.mem_cons_of_mem m hn)
      · intro n hn
        simp only [List.map_append, List.mem_append]
        rintro (hacc | hone)
        · exact hfresh n (List.mem_cons_of_mem m hn) hacc
        · simp only [List.map_cons, List.map_nil, List.mem_singleton] at hone
          exact hnotin (hone ▸ List.mem_map_of_mem (fun n => (g n).arn) hn)
      · exact (List.nodup_cons.mp hnd).2
    simp only [discoverLoop, hconf, hassign, hrest, List.map_cons]
    simp

end Aws

namespace Claims

open Aws Azure Config

/-- C1: if the per-cluster detail fetch (describeCluster inside
getClusterConfig) fails for any cluster in the listed sequence, Discover
returns an error: the `Except.error` result carries no DiscoverOutput, so no
partial cluster map is returned. -/
theorem discover_fail_fast_on_describe_error (ctx : Ctx) (c : EksClient)
    (names : List String) (n : String) (e : String)
    (hl : c.listClustersPages = Except.ok names)
    (hn : n ∈ names)
    (hd : c.describeCluster n = Except.error e) :
    exceptIsError (Discover ctx none c).1 = true := by
  have herr : exceptIsError (getClusterConfig c n) = true := by
    simp [getClusterConfig, hd, exceptIsError]
  have hloop := discoverLoop_isError_of_mem c names [] n hn herr
  have hne : (names.length == 0) = false := by
    cases names with
    | nil => exact absurd hn (List.not_mem_nil n)
    | cons _ _ => rfl
  unfold Discover listClusters
  rw [hl]
  simp only [hne, Bool.false_eq_true, if_false]
  cases hres : (discoverLoop c names []).1 with
  | error e2 => simp [exceptIsError]
  | ok m =>
    rw [hres] at hloop
    simp [exceptIsError] at hloop

/-- C1 witness: a run listing clusters a and b where describing b fails;
the whole Discover call is an error (no partial map with a). -/
theorem discover_fail_fast_on_describe_error_witness :
    exceptIsError (Discover { canceled := false } none
      { listClustersPages := Except.ok ["a", "b"]
        describeCluster := fun n =>
          if n = "a" then
            Except.ok { arn := "arn-a", name := "a",
                        endpoint := some "https://a", certificateAuthorityData := some "ca-a" }
          else Except.error "boom" }).1 = true :=
  discover_fail_fast_on_describe_error { canceled := false }
    { listClustersPages := Except.ok ["a", "b"]
      describeCluster := fun n =>
        if n = "a" then
          Except.ok { arn := "arn-a", name := "a",
                      endpoint := some "https://a", certificateAuthorityData := some "ca-a" }
        else Except.error "boom" }
    ["a", "b"] "b" "boom" rfl (by decide) rfl

/-- C4: a successful list call returning zero clusters makes Discover succeed
with an empty clusters map (one listClusters collaborator call, no describes). -/
theorem discover_zero_clusters_success (ctx : Ctx) (c : EksClient)
    (hl : c.listClustersPages = Except.ok []) :
    Discover ctx none c =
      (Except.ok
          { discoveryProvider := Aws.ProviderName
            identityProvider := "aws"
            clusters := [] },
        [CollabCall.listClusters]) := by
  unfold Discover listClusters
  rw [hl]
  exact rfl

/-- C4 witness: Discover at a collaborator listing zero clusters. -/
theorem discover_zero_clusters_success_witness :
    Discover { canceled := false } none
      { listClustersPages := Except.ok []
        describeCluster := fun _ => Except.error "unused" } =
      (Except.ok
          { discoveryProvider := Aws.ProviderName
            identityProvider := "aws"
            clusters := [] },
        [CollabCall.listClusters]) :=
  discover_zero_clusters_success { canceled := false }
    { listClustersPages := Except.ok []
      describeCluster := fun _ => Except.error "unused" } rfl

/-- C7: when setup fails, Discover wraps and returns its error, and the
collaborator call trace is empty: no list or describe call is made. The
identity dispatch itself (see Azure.setup) is a pure function making no
collaborator calls, so the dispatch completes before any network call. -/
theorem discover_setup_failure_no_collaborator_calls (ctx : Ctx) (c : EksClient)
    (e : String) :
    Discover ctx (some e) c =
      (Except.error ("setting up eks provider: " ++ e), []) := rfl

/-- C3: when the list call returns `names` and every describe succeeds with
distinct ARNs, Discover succeeds with one clusters-map entry per listed
cluster, keyed by the cluster id (the ARN), carrying the name, endpoint and
certificate-authority data the describe call returned. -/
theorem discover_success_builds_cluster_map (ctx : Ctx) (c : EksClient)
    (names : List String) (g : String → EksDescribeOutput)
    (hl : c.listClustersPages = Except.ok names)
    (hg : ∀ n ∈ names, c.describeCluster n = Except.ok (g n))
    (hnd : (names.map (fun n => (g n).arn)).Nodup) :
    (Discover ctx none c).1 =
      Except.ok
        { discoveryProvider := Aws.ProviderName
          identityProvider := "aws"
          clusters := names.map (fun n =>
            ((g n).arn,
              { id := (g n).arn
                name := (g n).name
                controlPlaneEndpoint := (g n).endpoint
                certificateAuthorityData := (g n).certificateAuthorityData })) } := by
  have hloop := discoverLoop_all_ok c g names []
    hg (by intro n _; simp) hnd
  simp only [Discover, listClusters, hl]
  cases names with
  | nil => exact rfl
  | cons m rest =>
    have hne : (((m :: rest) : List String).length == 0) = false := rfl
    simp only [hne, Bool.false_eq_true, if_false]
    rw [hloop]
    simp [clusterOfDescribe]

/-- C3 witness: two clusters a and b, both describes succeed; the output map
has exactly the two ARN-keyed entries with the returned fields. -/
theorem discover_success_builds_cluster_map_witness :
    (Discover { canceled := false } none twoClusterClient).1 =
      Except.ok
        { discoveryProvider := Aws.ProviderName
          identityProvider := "aws"
          clusters :=
            [ ("arn-a",
                { id := "arn-a", name := "a",
                  controlPlaneEndpoint := some "https://a",
                  certificateAuthorityData := some "ca-a" }),
              ("arn-b",
                { id := "arn-b", name := "b",
                  controlPlaneEndpoint := none,
                  certificateAuthorityData := none }) ] } := by
  have h := discover_success_builds_cluster_map { canceled := false }
    twoClusterClient ["a", "b"] twoClusterDescribe rfl
    (by
      intro n hn
      rcases List.mem_cons.mp hn with h1 | h1
      · subst h1; rfl
      · rcases List.mem_cons.mp h1 with h2 | h2
        · subst h2; rfl
        · exact absurd h2 (List.not_mem_nil n))
    (by decide)
  exact h

/-- C5 evaluation: the source of Discover never reads its context, so with a
canceled context it still makes the list call and the describe call and
returns the complete map with no error, instead of a CanceledError with no
further collaborator calls. -/
theorem discover_runs_despite_canceled_ctx :
    ({ canceled := true : Ctx }).canceled = true ∧
    Discover { canceled := true } none
      { listClustersPages := Except.ok ["a"]
        describeCluster := fun _ =>
          Except.ok
            { arn := "arn-a", name := "a",
              endpoint := some "https://a", certificateAuthorityData := some "ca-a" } } =
      (Except.ok
          { discoveryProvider := Aws.ProviderName
            identityProvider := "aws"
            clusters :=
              [ ("arn-a",
                  { id := "arn-a", name := "a",
                    controlPlaneEndpoint := some "https://a",
                    certificateAuthorityData := some "ca-a" }) ] },
        [CollabCall.listClusters, CollabCall.describeCluster "a"]) :=
  ⟨rfl, rfl⟩

/-- C2: the identity dispatch of setup — an OIDC identity resolves to a bearer
authorizer wrapping that identity, an authorizer identity resolves to exactly
the authorizer it carries, and any other variant fails with the unsupported
identity error. -/
theorem setup_identity_dispatch (p : aksClusterProvider) (cs : ConfigurationSet)
    (cfg : aksClusterProviderConfig)
    (h : Unmarshall cs = Except.ok cfg) :
    (∀ oid : OidcIdentity,
        setup p cs (Identity.oidc oid) =
          ({ p with
              config := some cfg
              authorizer := some (Authorizer.bearer oid) }, none)) ∧
    (∀ aid : AuthorizerIdentity,
        setup p cs (Identity.authorizer aid) =
          ({ p with
              config := some cfg
              authorizer := some aid.authorizer }, none)) ∧
    (∀ nm : String,
        setup p cs (Identity.other nm) =
          ({ p with config := some cfg },
            some AzureError.unsupportedIdentity)) := by
  refine ⟨fun oid => ?_, fun aid => ?_, fun nm => ?_⟩ <;> simp [setup, h]

/-- C2 witness: the three dispatch arms at concrete identities over the
default AKS configuration set. -/
theorem setup_identity_dispatch_witness :
    setup emptyAksProvider aksDefaultConfigSet
        (Identity.oidc { accessToken := "tok" }) =
      ({ emptyAksProvider with
          config := some aksDefaultConfig
          authorizer := some (Authorizer.bearer { accessToken := "tok" }) }, none) ∧
    setup emptyAksProvider aksDefaultConfigSet
        (Identity.authorizer { authorizer := Authorizer.external "prebuilt" }) =
      ({ emptyAksProvider with
          config := some aksDefaultConfig
          authorizer := some (Authorizer.external "prebuilt") }, none) ∧
    setup emptyAksProvider aksDefaultConfigSet (Identity.other "saml") =
      ({ emptyAksProvider with config := some aksDefaultConfig },
        some AzureError.unsupportedIdentity) := by
  have h := setup_identity_dispatch emptyAksProvider aksDefaultConfigSet
    aksDefaultConfig rfl
  exact ⟨h.1 _, h.2.1 _, h.2.2 _⟩

/-- C6 counterexample: at the concrete unsupported identity-provider name
"saml", the error setup returns is the parameterless sentinel, whose message
contains neither the offending identity-provider name nor the
discovery-provider name. -/
theorem unsupported_identity_error_unnamed_counterexample :
    (setup emptyAksProvider aksDefaultConfigSet (Identity.other "saml")).2 =
      some AzureError.unsupportedIdentity ∧
    strContainsSub (AzureError.message AzureError.unsupportedIdentity) "saml" = false ∧
    strContainsSub (AzureError.message AzureError.unsupportedIdentity)
      Azure.ProviderName = false :=
  ⟨rfl, by decide, by decide⟩

/-- C6 (amended): every unsupported identity makes setup fail with the fixed
sentinel ErrUnsupportedIdentity; the error is one constant, independent of
the offending identity, so it cannot name the offending identity provider. -/
theorem unsupported_identity_fixed_sentinel (p : aksClusterProvider)
    (cs : ConfigurationSet) (cfg : aksClusterProviderConfig)
    (h : Unmarshall cs = Except.ok cfg) (nm : String) :
    (setup p cs (Identity.other nm)).2 = some AzureError.unsupportedIdentity ∧
    (∀ nm' : String,
      (setup p cs (Identity.other nm)).2 = (setup p cs (Identity.other nm')).2) := by
  constructor
  · simp [setup, h]
  · intro nm'
    simp [setup, h]

/-- C6 witness: two different unsupported identity-provider names receive the
same sentinel error. -/
theorem unsupported_identity_fixed_sentinel_witness :
    (setup emptyAksProvider aksDefaultConfigSet (Identity.other "saml-idp")).2 =
      some AzureError.unsupportedIdentity ∧
    (setup emptyAksProvider aksDefaultConfigSet (Identity.other "saml-idp")).2 =
      (setup emptyAksProvider aksDefaultConfigSet (Identity.other "ldap-idp")).2 :=
  ⟨(unsupported_identity_fixed_sentinel emptyAksProvider aksDefaultConfigSet
      aksDefaultConfig rfl "saml-idp").1,
   (unsupported_identity_fixed_sentinel emptyAksProvider aksDefaultConfigSet
      aksDefaultConfig rfl "saml-idp").2 "ldap-idp"⟩

/-- C8: for every scope string, ConfigurationItems succeeds with exactly the
five AKS items, in declaration order, with their kinds, defaults and
descriptions, and resource-group carrying short alias r. -/
theorem configuration_items_aks_five_items (scopeTo : String) :
    ConfigurationItems scopeTo =
      Except.ok
        { items :=
            [ { name := "subscription-id", value := ConfigValue.str "",
                description := "The Azure subscription to use (specified by ID)",
                shortAlias := none },
              { name := "subscription-name", value := ConfigValue.str "",
                description := "The Azure subscription to use (specified by name)",
                shortAlias := none },
              { name := "resource-group", value := ConfigValue.str "",
                description := "The Azure resource group to use",
                shortAlias := some "r" },
              { name := "admin", value := ConfigValue.bool false,
                description := "Generate admin user kubeconfig",
                shortAlias := none },
              { name := "cluster-name", value := ConfigValue.str "",
                description := "The name of the AKS cluster",
                shortAlias := none } ] } := rfl

/-- C9: New fails with the http-client-required sentinel exactly when the HTTP
client collaborator is absent, and otherwise returns the provider built from
the input. -/
theorem new_requires_http_client (input : PluginCreationInput) :
    (input.HTTPClient = none →
      New input = Except.error AzureError.httpClientRequired) ∧
    (∀ hc : HTTPClient, input.HTTPClient = some hc →
      New input =
        Except.ok
          { config := none
            authorizer := none
            httpClient := hc
            interactive := input.IsInteractice }) := by
  constructor
  · intro h
    simp [New, h]
  · intro hc h
    simp [New, h]

/-- C9 witness: New at an input with no HTTP client, and at one with a
client. -/
theorem new_requires_http_client_witness :
    New { HTTPClient := none, IsInteractice := false } =
      Except.error AzureError.httpClientRequired ∧
    New { HTTPClient := some { tag := "hc" }, IsInteractice := true } =
      Except.ok
        { config := none
          authorizer := none
          httpClient := { tag := "hc" }
          interactive := true } :=
  ⟨(new_requires_http_client { HTTPClient := none, IsInteractice := false }).1 rfl,
   (new_requires_http_client
      { HTTPClient := some { tag := "hc" }, IsInteractice := true }).2 { tag := "hc" } rfl⟩

/-- C10: setup is not atomic on identity-dispatch failure — when unmarshalling
succeeds and the identity is unsupported, setup returns an error but has
already overwritten the config field with the new configuration, while the
authorizer field is unchanged. -/
theorem setup_not_atomic_on_unsupported_identity (p : aksClusterProvider)
    (cs : ConfigurationSet) (cfg : aksClusterProviderConfig) (nm : String)
    (h : Unmarshall cs = Except.ok cfg) :
    (setup p cs (Identity.other nm)).2 = some AzureError.unsupportedIdentity ∧
    (setup p cs (Identity.other nm)).1.config = some cfg ∧
    (setup p cs (Identity.other nm)).1.authorizer = p.authorizer := by
  refine ⟨?_, ?_, ?_⟩ <;> simp [setup, h]

/-- C10 witness: a provider holding an older configuration and a resolved
authorizer; the failing setup overwrites the configuration and leaves the
authorizer. -/
theorem setup_not_atomic_on_unsupported_identity_witness :
    (setup staleAksProvider aksDefaultConfigSet (Identity.other "saml")).2 =
      some AzureError.unsupportedIdentity ∧
    (setup staleAksProvider aksDefaultConfigSet (Identity.other "saml")).1.config =
      some aksDefaultConfig ∧
    (setup staleAksProvider aksDefaultConfigSet (Identity.other "saml")).1.authorizer =
      staleAksProvider.authorizer :=
  setup_not_atomic_on_unsupported_identity staleAksProvider aksDefaultConfigSet
    aksDefaultConfig "saml" rfl

end Claims
